import Mathlib

/-!
Verification of the PieData field/schema validation engine and its SQL
projection (src/PieData/main.py), as a shallow embedding in Lean.

Python runtime values relevant to the library are modelled by `PyValue`;
Python's `isinstance` tests become the `is*` discriminators (note that in
Python a `bool` is an instance of `int`, which the model reflects).
`datetime.strptime` success is abstracted as a Boolean parameter
`strptime : String → String → Bool` (strptime s fmt = true iff Python's
`datetime.strptime(s, fmt)` succeeds, i.e. the pattern consumes the whole
input); every definition that reaches the datetime validator takes it as
an argument.
-/

namespace PieData

/-- Model of the Python runtime values flowing through the library.
A `datetime` object is opaque apart from its textual rendering; a Python
`float` is modelled by an exact rational (NaN/inf never arise in the
claims considered). -/
inductive PyValue where
  | none
  | bool (b : Bool)
  | int (n : Int)
  | float (q : Rat)
  | str (s : String)
  | datetime (d : String)
  deriving DecidableEq

/-- Python `isinstance(v, int)`: `bool` is a subclass of `int`. -/
def isInt : PyValue → Bool
  | .bool _ => true
  | .int _ => true
  | _ => false

/-- Python `isinstance(v, float)`: an `int` is not an instance of `float`. -/
def isFloat : PyValue → Bool
  | .float _ => true
  | _ => false

/-- Python `isinstance(v, str)`. -/
def isStr : PyValue → Bool
  | .str _ => true
  | _ => false

/-- Python `isinstance(v, datetime)`. -/
def isDatetime : PyValue → Bool
  | .datetime _ => true
  | _ => false

/-- Python `isinstance(v, int | float)` as used by `PieModel._parse_value`. -/
def isNumeric : PyValue → Bool
  | .bool _ => true
  | .int _ => true
  | .float _ => true
  | _ => false

/-- Numeric value of an integer-typed Python value (`True` compares as 1,
`False` as 0). Only consulted under an `isInt` guard. -/
def pyIntVal : PyValue → Int
  | .bool b => if b then 1 else 0
  | .int n => n
  | _ => 0

/-- Numeric value of a float-typed Python value; only consulted under an
`isFloat` guard. -/
def pyRatVal : PyValue → Rat
  | .float q => q
  | _ => 0

/-- String payload of a text value; only consulted under an `isStr` guard. -/
def strVal : PyValue → String
  | .str s => s
  | _ => ""

/-- The field hierarchy: `PieField` and its four subclasses, each carrying
its constructor arguments (`initial_value`, `is_required`, and the
subclass-specific constraints). -/
inductive PieField where
  | base (initialValue : PyValue) (isRequired : Bool)
  | string (initialValue : PyValue) (maxLength : Option Nat) (isRequired : Bool)
  | integer (initialValue : PyValue) (maxValue : Option Int) (minValue : Option Int) (isRequired : Bool)
  | float (initialValue : PyValue) (maxValue : Option Rat) (minValue : Option Rat) (isRequired : Bool)
  | datetime (initialValue : PyValue) (isRequired : Bool) (customFormats : List String)
  deriving DecidableEq

/-- The `is_required` attribute set by `PieField.__init__`. -/
def isRequired : PieField → Bool
  | .base _ r => r
  | .string _ _ r => r
  | .integer _ _ _ r => r
  | .float _ _ _ r => r
  | .datetime _ r _ => r

/-- The `initial_value` attribute set by `PieField.__init__`. -/
def initialValue : PieField → PyValue
  | .base i _ => i
  | .string i _ _ => i
  | .integer i _ _ _ => i
  | .float i _ _ _ => i
  | .datetime i _ _ => i

/-- `PieField.validate`: if not required, accept; if required, accept
exactly the non-`None` values. -/
def baseValidate (required : Bool) (value : PyValue) : Bool :=
  if !required then true
  else if value = PyValue.none then false else true

/-- `StringField._validate_length`. -/
def validateLength (maxLength : Option Nat) (s : String) : Bool :=
  match maxLength with
  | Option.none => true
  | some m => decide (s.length ≤ m)

/-- `IntegerField._validate_value`: bound checks, an unset bound passing. -/
def validateIntBounds (maxValue : Option Int) (minValue : Option Int) (v : Int) : Bool :=
  (match minValue with
   | Option.none => true
   | some lo => decide (lo ≤ v)) &&
  (match maxValue with
   | Option.none => true
   | some hi => decide (v ≤ hi))

/-- `FloatField._validate_value`: same bound policy over rationals. -/
def validateRatBounds (maxValue : Option Rat) (minValue : Option Rat) (v : Rat) : Bool :=
  (match minValue with
   | Option.none => true
   | some lo => decide (lo ≤ v)) &&
  (match maxValue with
   | Option.none => true
   | some hi => decide (v ≤ hi))

/-- `DatetimeField.SUPPORTED_FORMATS`, in source order. -/
def SUPPORTED_FORMATS : List String :=
  ["%Y-%m-%dT%H:%M:%S",
   "%Y-%m-%dT%H:%M:%SZ",
   "%Y-%m-%dT%H:%M:%S%z",
   "%Y-%m-%d %H:%M:%S",
   "%Y-%m-%d",
   "%Y.%m.%d",
   "%d.%m.%Y",
   "%m/%d/%Y",
   "%H:%M:%S",
   "%H:%M"]

/-- `DatetimeField.__init__`: the instance's `formats` list is a copy of the
built-ins with any caller-supplied custom formats appended. -/
def dtFormats (customFormats : List String) : List String :=
  SUPPORTED_FORMATS ++ customFormats

/-- The `validate` method of each field subclass. Every subclass first calls
`super().validate` (the required/`None` gate) and then runs its own
type/constraint check on non-`None` values. `strptime s fmt` abstracts
success of Python's `datetime.strptime(s, fmt)`. -/
def validate (strptime : String → String → Bool) : PieField → PyValue → Bool
  | .base _ required, v => baseValidate required v
  | .string _ maxLength required, v =>
      if baseValidate required v then
        decide (v = PyValue.none) || (isStr v && validateLength maxLength (strVal v))
      else false
  | .integer _ maxValue minValue required, v =>
      if baseValidate required v then
        decide (v = PyValue.none) || (isInt v && validateIntBounds maxValue minValue (pyIntVal v))
      else false
  | .float _ maxValue minValue required, v =>
      if baseValidate required v then
        decide (v = PyValue.none) || (isFloat v && validateRatBounds maxValue minValue (pyRatVal v))
      else false
  | .datetime _ required customFormats, v =>
      if !baseValidate required v then false
      else if v = PyValue.none then true
      else if isDatetime v then true
      else match v with
        | .str s => (dtFormats customFormats).any (fun fmt => strptime s fmt)
        | _ => false

/-- The two `AttributeError` conditions raised by `PieModel.__setattr__`,
carrying the same diagnostic data as the Python messages. -/
inductive PieError where
  | invalidValue (value : PyValue) (key : String)
  | unknownField (key : String)
  deriving DecidableEq

/-- An instance's `__dict__`: field name to current value, in order of
first assignment. -/
abbrev Values := List (String × PyValue)

/-- A class's `_fields` dict: field name to `PieField`, in declaration
order. -/
abbrev Fields := List (String × PieField)

/-- Dict lookup `self._fields[key]` (with `key in self._fields` its
`isSome`). -/
def lookupField (fields : Fields) (k : String) : Option PieField :=
  (fields.find? (fun p => p.1 == k)).map (fun p => p.2)

/-- `hasattr(self, name)` restricted to the instance dict (field names are
removed from the class namespace at registration, so this is what the
source's `hasattr` observes for field names). -/
def hasKey (vals : Values) (k : String) : Bool :=
  vals.any (fun p => p.1 == k)

/-- `object.__setattr__` on the instance dict: overwrite in place if the
key is present, otherwise append. -/
def dictSet (vals : Values) (k : String) (v : PyValue) : Values :=
  if hasKey vals k then
    vals.map (fun p => if p.1 == k then (k, v) else p)
  else vals ++ [(k, v)]

/-- `PieModel.__setattr__`: unknown keys and invalid values raise, leaving
the instance dict untouched; valid values for known fields are committed. -/
def setattr (strptime : String → String → Bool) (fields : Fields) (vals : Values)
    (key : String) (value : PyValue) : Values × Option PieError :=
  match lookupField fields key with
  | some f =>
      if validate strptime f value then (dictSet vals key value, Option.none)
      else (vals, some (PieError.invalidValue value key))
  | Option.none => (vals, some (PieError.unknownField key))

/-- First loop of `PieModel.__init__`: assign each keyword override through
`setattr`, propagating the first raised error. -/
def applyKwargs (strptime : String → String → Bool) (fields : Fields) :
    List (String × PyValue) → Values → Except PieError Values
  | [], vals => Except.ok vals
  | (k, v) :: rest, vals =>
      match setattr strptime fields vals k v with
      | (vals2, Option.none) => applyKwargs strptime fields rest vals2
      | (_, some e) => Except.error e

/-- Second loop of `PieModel.__init__`: for each schema field not already
set, assign its default through `setattr` (the same validated path),
propagating the first raised error. -/
def applyDefaults (strptime : String → String → Bool) (fields : Fields) :
    Fields → Values → Except PieError Values
  | [], vals => Except.ok vals
  | (name, f) :: rest, vals =>
      if hasKey vals name then applyDefaults strptime fields rest vals
      else
        match setattr strptime fields vals name (initialValue f) with
        | (vals2, Option.none) => applyDefaults strptime fields rest vals2
        | (_, some e) => Except.error e

/-- `PieModel.__init__` on a fresh instance: keyword overrides first, then
defaults for the unsupplied fields. -/
def pieInit (strptime : String → String → Bool) (fields : Fields)
    (kwargs : List (String × PyValue)) : Except PieError Values :=
  match applyKwargs strptime fields kwargs [] with
  | Except.ok vals => applyDefaults strptime fields fields vals
  | Except.error e => Except.error e

/-- A member of a class namespace as scanned by `PieModelMeta.__new__`:
either a `PieField` declaration or any other member (method, docstring,
…), which the metaclass leaves alone. -/
inductive NsVal where
  | field (f : PieField)
  | other
  deriving DecidableEq

/-- What schema registration attaches to the record type: `_table_name`
and `_fields`. -/
structure Schema where
  tableName : String
  fields : Fields
  deriving DecidableEq

/-- The dict comprehension in `PieModelMeta.__new__`: every namespace
member that is a `PieField` instance, keyed by name, in declaration
order. -/
def collectFields (ns : List (String × NsVal)) : Fields :=
  ns.filterMap (fun p =>
    match p.2 with
    | NsVal.field f => some (p.1, f)
    | NsVal.other => Option.none)

/-- `PieModelMeta.__new__`: the field map comes from the namespace scan
and `_table_name` from the class's `__qualname__`. -/
def pieModelMeta (qualname : String) (ns : List (String × NsVal)) : Schema :=
  { tableName := qualname, fields := collectFields ns }

/-- `type(value).__name__` for each field subclass. -/
def typeName : PieField → String
  | .base .. => "PieField"
  | .string .. => "StringField"
  | .integer .. => "IntegerField"
  | .float .. => "FloatField"
  | .datetime .. => "DatetimeField"

/-- Python `str.removesuffix`: drop the suffix when present, else return
the string unchanged. -/
def removesuffix (s suff : String) : String :=
  if s.endsWith suff then s.dropRight suff.length else s

/-- `PieModel._create_table_sql`: one `<name> <TypeTag>` column per field
in declaration order, wrapped in parentheses after the table name. -/
def createTableSql (s : Schema) : String :=
  let data := s.fields.map (fun p => p.1 ++ " " ++ removesuffix (typeName p.2) "Field")
  let res := "(" ++ String.intercalate ", " data ++ ")"
  "create table " ++ s.tableName ++ " " ++ res

/-- Stand-in for Python's textual rendering of a `float`; no claim
depends on its exact output. -/
def pyFloatStr (q : Rat) : String := toString q

/-- Python `str(v)` for the modelled values (`str(None) = "None"`,
`str(True) = "True"`, integers in decimal, a datetime by its opaque
rendering). -/
def pyStr : PyValue → String
  | .none => "None"
  | .bool b => if b then "True" else "False"
  | .int n => toString n
  | .float q => pyFloatStr q
  | .str s => s
  | .datetime d => d

/-- `PieModel._parse_value`: numeric values (`isinstance(value, int | float)`)
render unquoted via `str`, everything else is wrapped in single quotes
around its `str`, with no escaping. -/
def parseValue (v : PyValue) : String :=
  if isNumeric v then pyStr v else "\x27" ++ pyStr v ++ "\x27"

/-- `getattr(self, k)` on the instance dict. -/
def lookupVal (vals : Values) (k : String) : Option PyValue :=
  (vals.find? (fun p => p.1 == k)).map (fun p => p.2)

/-- The generator expression of `PieModel._insert_into_sql`:
`_parse_value(getattr(self, key)) for key in data`, one rendered value per
field in declaration order. `Option.none` models the `AttributeError`
Python's `getattr` would raise for a field with no stored value
(impossible after a successful `__init__`). -/
def renderVals (vals : Values) : Fields → Option (List String)
  | [] => some []
  | p :: rest =>
      match lookupVal vals p.1 with
      | some v => (renderVals vals rest).map (fun rs => parseValue v :: rs)
      | Option.none => Option.none

/-- `PieModel._insert_into_sql`: columns are the field names in declaration
order; each value is `getattr(self, key)` rendered by `_parse_value`. -/
def insertIntoSql (s : Schema) (vals : Values) : Option String :=
  match renderVals vals s.fields with
  | some rendered =>
      some ("insert into " ++ s.tableName ++ " ("
        ++ String.intercalate ", " (s.fields.map (fun p => p.1))
        ++ ") values ("
        ++ String.intercalate ", " rendered ++ ")")
  | Option.none => Option.none

/-- One stored entry is valid: its key names a schema field and its value
passes that field's `validate`. -/
def entryValid (strptime : String → String → Bool) (fields : Fields)
    (p : String × PyValue) : Bool :=
  match lookupField fields p.1 with
  | some f => validate strptime f p.2
  | Option.none => false

/-- The record-state invariant: every stored value belongs to a schema
field and satisfies that field's `validate`. -/
def allValid (strptime : String → String → Bool) (fields : Fields) (vals : Values) : Bool :=
  vals.all (entryValid strptime fields)

/-- The same field specification with its `is_required` flag replaced. -/
def withRequired : PieField → Bool → PieField
  | .base i _, r => .base i r
  | .string i ml _, r => .string i ml r
  | .integer i mx mn _, r => .integer i mx mn r
  | .float i mx mn _, r => .float i mx mn r
  | .datetime i _ c, r => .datetime i r c

/-! Helper lemmas shared by the claim theorems. -/

lemma baseValidate_of_ne_none (r : Bool) (v : PyValue) (h : v ≠ PyValue.none) :
    baseValidate r v = true := by
  cases r <;> simp [baseValidate, h]

/-- C4: for every field kind and every configuration of its constraints,
`validate(None)` is `true` iff `required` is `false`. -/
theorem validate_none_iff_not_required (strptime : String → String → Bool) (f : PieField) :
    validate strptime f PyValue.none = !(isRequired f) := by
  cases f with
  | base i r => cases r <;> simp [validate, baseValidate, isRequired]
  | string i ml r => cases r <;> simp [validate, baseValidate, isRequired]
  | integer i mx mn r => cases r <;> simp [validate, baseValidate, isRequired]
  | float i mx mn r => cases r <;> simp [validate, baseValidate, isRequired]
  | datetime i r c => cases r <;> simp [validate, baseValidate, isRequired]

/-- C5 (counterexample): a text field with `required = false` still rejects
an integer-typed value, so "if not required, any value is valid" is false
as a statement about the field subclasses. -/
theorem not_required_field_still_rejects :
    isRequired (PieField.string PyValue.none Option.none false) = false ∧
    validate (fun _ _ => false) (PieField.string PyValue.none Option.none false)
      (PyValue.int 3) = false :=
  ⟨rfl, rfl⟩

/-- C5 (amended): the `is_required` flag only governs acceptance of `None`;
for every non-`None` value the outcome of `validate` is the same for any
setting of the flag, i.e. the subtype-specific check is consulted on every
non-`None` value regardless of required-ness. -/
theorem validate_ignores_required_on_nonnone (strptime : String → String → Bool)
    (f : PieField) (v : PyValue) (h : v ≠ PyValue.none) (r1 r2 : Bool) :
    validate strptime (withRequired f r1) v = validate strptime (withRequired f r2) v := by
  have h1 := baseValidate_of_ne_none r1 v h
  have h2 := baseValidate_of_ne_none r2 v h
  cases f <;> simp [validate, withRequired, h1, h2]

theorem validate_ignores_required_on_nonnone_witness :
    (PyValue.int 7 ≠ PyValue.none) ∧
    validate (fun _ _ => false)
        (withRequired (PieField.integer PyValue.none Option.none Option.none false) true)
        (PyValue.int 7)
      = validate (fun _ _ => false)
        (withRequired (PieField.integer PyValue.none Option.none Option.none false) false)
        (PyValue.int 7) :=
  ⟨by decide,
   validate_ignores_required_on_nonnone (fun _ _ => false)
     (PieField.integer PyValue.none Option.none Option.none false)
     (PyValue.int 7) (by decide) true false⟩

/-- C6: an integer field accepts an integer-typed non-`None` value exactly
when the value lies within the configured bounds, an unset bound passing
unconditionally. -/
theorem integer_validate_iff_bounds (strptime : String → String → Bool)
    (i : PyValue) (mx mn : Option Int) (r : Bool) (v : PyValue) (h : isInt v = true) :
    (validate strptime (PieField.integer i mx mn r) v = true ↔
      (∀ lo ∈ mn, lo ≤ pyIntVal v) ∧ (∀ hi ∈ mx, pyIntVal v ≤ hi)) := by
  have hne : v ≠ PyValue.none := by cases v <;> simp_all [isInt]
  have hb := baseValidate_of_ne_none r v hne
  simp only [validate, hb, if_true, h, Bool.true_and]
  rw [decide_eq_false hne]
  cases mn <;> cases mx <;>
    simp [validateIntBounds, Option.mem_def, and_comm]

theorem integer_validate_iff_bounds_witness :
    isInt (PyValue.int 5) = true ∧
    (validate (fun _ _ => false)
        (PieField.integer PyValue.none (some 10) (some 0) true) (PyValue.int 5) = true ↔
      (∀ lo ∈ (some (0 : Int)), lo ≤ pyIntVal (PyValue.int 5)) ∧
      (∀ hi ∈ (some (10 : Int)), pyIntVal (PyValue.int 5) ≤ hi)) :=
  ⟨by decide,
   integer_validate_iff_bounds (fun _ _ => false) PyValue.none (some 10) (some 0) true
     (PyValue.int 5) (by decide)⟩

/-- C7: a real field rejects every integer-typed value, whatever the
configured bounds — the `isinstance(value, float)` test is strict type
discrimination, not numeric equivalence. -/
theorem float_rejects_integer_typed (strptime : String → String → Bool)
    (i : PyValue) (mx mn : Option Rat) (r : Bool) (v : PyValue) (h : isInt v = true) :
    validate strptime (PieField.float i mx mn r) v = false := by
  have hne : v ≠ PyValue.none := by cases v <;> simp_all [isInt]
  have hb := baseValidate_of_ne_none r v hne
  have hnf : isFloat v = false := by cases v <;> simp_all [isInt, isFloat]
  simp [validate, hb, hnf, hne]

theorem float_rejects_integer_typed_witness :
    isInt (PyValue.int 3) = true ∧
    validate (fun _ _ => false)
      (PieField.float PyValue.none (some 10) (some 0) false) (PyValue.int 3) = false :=
  ⟨by decide,
   float_rejects_integer_typed (fun _ _ => false) PyValue.none (some 10) (some 0) false
     (PyValue.int 3) (by decide)⟩

/-- C8: a timestamp field accepts a text value exactly when some pattern in
its format list — the built-ins in source order followed by the
caller-supplied custom formats — parses it (`strptime s fmt` abstracting a
whole-input `datetime.strptime` success); and every non-text, non-datetime,
non-`None` value is rejected. -/
theorem datetime_validate_characterization (strptime : String → String → Bool)
    (i : PyValue) (r : Bool) (customFormats : List String) :
    (∀ s : String,
        validate strptime (PieField.datetime i r customFormats) (PyValue.str s) =
          (SUPPORTED_FORMATS ++ customFormats).any (fun fmt => strptime s fmt)) ∧
    (∀ v : PyValue, isStr v = false → isDatetime v = false → v ≠ PyValue.none →
        validate strptime (PieField.datetime i r customFormats) v = false) := by
  constructor
  · intro s
    have hb := baseValidate_of_ne_none r (PyValue.str s) (by simp)
    simp [validate, hb, dtFormats, isDatetime]
  · intro v hs hd hn
    have hb := baseValidate_of_ne_none r v hn
    cases v <;> simp_all [validate, isStr, isDatetime]

theorem datetime_validate_characterization_witness :
    (validate (fun s fmt => s == fmt) (PieField.datetime PyValue.none false ["%X"])
        (PyValue.str "%X") =
      (SUPPORTED_FORMATS ++ ["%X"]).any (fun fmt => (fun s f => s == f) "%X" fmt)) ∧
    (isStr (PyValue.int 0) = false ∧ isDatetime (PyValue.int 0) = false ∧
      PyValue.int 0 ≠ PyValue.none ∧
      validate (fun s fmt => s == fmt) (PieField.datetime PyValue.none false ["%X"])
        (PyValue.int 0) = false) :=
  ⟨(datetime_validate_characterization (fun s fmt => s == fmt) PyValue.none false ["%X"]).1 "%X",
   by decide, by decide, by decide,
   (datetime_validate_characterization (fun s fmt => s == fmt) PyValue.none false ["%X"]).2
     (PyValue.int 0) (by decide) (by decide) (by decide)⟩

lemma entryValid_store (strptime : String → String → Bool) (fields : Fields)
    (k : String) (f : PieField) (v : PyValue)
    (hf : lookupField fields k = some f) (hv : validate strptime f v = true) :
    entryValid strptime fields (k, v) = true := by
  simp [entryValid, hf, hv]

lemma allValid_dictSet (strptime : String → String → Bool) (fields : Fields)
    (vals : Values) (k : String) (f : PieField) (v : PyValue)
    (h : allValid strptime fields vals = true)
    (hf : lookupField fields k = some f) (hv : validate strptime f v = true) :
    allValid strptime fields (dictSet vals k v) = true := by
  rw [allValid, List.all_eq_true] at *
  unfold dictSet
  split
  · intro p hp
    rw [List.mem_map] at hp
    obtain ⟨q, hq, rfl⟩ := hp
    by_cases hqk : q.1 == k
    · simp only [hqk, if_true]
      exact entryValid_store strptime fields k f v hf hv
    · simp only [hqk, Bool.false_eq_true, if_false]
      exact h q hq
  · intro p hp
    rw [List.mem_append] at hp
    cases hp with
    | inl hp => exact h p hp
    | inr hp =>
        rw [List.mem_singleton] at hp
        subst hp
        exact entryValid_store strptime fields k f v hf hv

lemma setattr_fst_allValid (strptime : String → String → Bool) (fields : Fields)
    (vals : Values) (key : String) (v : PyValue)
    (h : allValid strptime fields vals = true) :
    allValid strptime fields (setattr strptime fields vals key v).1 = true := by
  cases hf : lookupField fields key with
  | none => simpa [setattr, hf] using h
  | some f =>
      cases hv : validate strptime f v with
      | false => simpa [setattr, hf, hv] using h
      | true =>
          simp only [setattr, hf, hv, if_true]
          exact allValid_dictSet strptime fields vals key f v h hf hv

lemma applyKwargs_allValid (strptime : String → String → Bool) (fields : Fields) :
    ∀ (kwargs : List (String × PyValue)) (vals vals2 : Values),
      allValid strptime fields vals = true →
      applyKwargs strptime fields kwargs vals = Except.ok vals2 →
      allValid strptime fields vals2 = true
  | [], vals, vals2, h, hok => by
      simp only [applyKwargs, Except.ok.injEq] at hok
      subst hok
      exact h
  | (k, v) :: rest, vals, vals2, h, hok => by
      simp only [applyKwargs] at hok
      cases hs : setattr strptime fields vals k v with
      | mk vals' e =>
          rw [hs] at hok
          cases e with
          | none =>
              have h' : allValid strptime fields vals' = true := by
                have hstep := setattr_fst_allValid strptime fields vals k v h
                rw [hs] at hstep
                exact hstep
              exact applyKwargs_allValid strptime fields rest vals' vals2 h' hok
          | some err => simp at hok

lemma applyDefaults_allValid (strptime : String → String → Bool) (fields : Fields) :
    ∀ (fs : Fields) (vals vals2 : Values),
      allValid strptime fields vals = true →
      applyDefaults strptime fields fs vals = Except.ok vals2 →
      allValid strptime fields vals2 = true
  | [], vals, vals2, h, hok => by
      simp only [applyDefaults, Except.ok.injEq] at hok
      subst hok
      exact h
  | (name, f) :: rest, vals, vals2, h, hok => by
      simp only [applyDefaults] at hok
      cases hk : hasKey vals name with
      | true =>
          rw [hk] at hok
          simp only [if_true] at hok
          exact applyDefaults_allValid strptime fields rest vals vals2 h hok
      | false =>
          rw [hk] at hok
          simp only [Bool.false_eq_true, if_false] at hok
          cases hs : setattr strptime fields vals name (initialValue f) with
          | mk vals' e =>
              rw [hs] at hok
              cases e with
              | none =>
                  have h' : allValid strptime fields vals' = true := by
                    have hstep := setattr_fst_allValid strptime fields vals name (initialValue f) h
                    rw [hs] at hstep
                    exact hstep
                  exact applyDefaults_allValid strptime fields rest vals' vals2 h' hok
              | some err => simp at hok

/-- C3: the record invariant — after a successful construction, and after
any attribute assignment whether it succeeds or fails, every value stored
in the instance dict belongs to a schema field and satisfies that field's
`validate`; no unvalidated state is observable. -/
theorem record_values_always_valid (strptime : String → String → Bool) (fields : Fields) :
    (∀ kwargs vals, pieInit strptime fields kwargs = Except.ok vals →
        allValid strptime fields vals = true) ∧
    (∀ vals key v, allValid strptime fields vals = true →
        allValid strptime fields (setattr strptime fields vals key v).1 = true) := by
  constructor
  · intro kwargs vals h
    unfold pieInit at h
    cases hk : applyKwargs strptime fields kwargs [] with
    | ok vals1 =>
        rw [hk] at h
        have h0 : allValid strptime fields ([] : Values) = true := rfl
        have h1 := applyKwargs_allValid strptime fields kwargs [] vals1 h0 hk
        exact applyDefaults_allValid strptime fields fields vals1 vals h1 h
    | error e =>
        rw [hk] at h
        simp at h
  · intro vals key v h
    exact setattr_fst_allValid strptime fields vals key v h

theorem record_values_always_valid_witness :
    (pieInit (fun _ _ => false)
        [("a", PieField.integer (PyValue.int 0) Option.none Option.none false),
         ("b", PieField.integer (PyValue.int 1) Option.none Option.none false)]
        [("a", PyValue.int 5)]
      = Except.ok [("a", PyValue.int 5), ("b", PyValue.int 1)]) ∧
    allValid (fun _ _ => false)
      [("a", PieField.integer (PyValue.int 0) Option.none Option.none false),
       ("b", PieField.integer (PyValue.int 1) Option.none Option.none false)]
      [("a", PyValue.int 5), ("b", PyValue.int 1)] = true ∧
    allValid (fun _ _ => false)
      [("a", PieField.integer (PyValue.int 0) Option.none Option.none false),
       ("b", PieField.integer (PyValue.int 1) Option.none Option.none false)]
      ((setattr (fun _ _ => false)
        [("a", PieField.integer (PyValue.int 0) Option.none Option.none false),
         ("b", PieField.integer (PyValue.int 1) Option.none Option.none false)]
        [("a", PyValue.int 5)] "a" (PyValue.int 7)).1) = true :=
  ⟨rfl,
   (record_values_always_valid (fun _ _ => false)
      [("a", PieField.integer (PyValue.int 0) Option.none Option.none false),
       ("b", PieField.integer (PyValue.int 1) Option.none Option.none false)]).1
     [("a", PyValue.int 5)] [("a", PyValue.int 5), ("b", PyValue.int 1)] rfl,
   (record_values_always_valid (fun _ _ => false)
      [("a", PieField.integer (PyValue.int 0) Option.none Option.none false),
       ("b", PieField.integer (PyValue.int 1) Option.none Option.none false)]).2
     [("a", PyValue.int 5)] "a" (PyValue.int 7) (by decide)⟩

/-- C2: a failing attribute assignment is atomic — an invalid value for a
known field raises the invalid-field-value error carrying the value and
field name, and an unknown field name raises the unknown-field error; in
both cases the instance dict is returned exactly as it was. -/
theorem setattr_error_leaves_state (strptime : String → String → Bool)
    (fields : Fields) (vals : Values) (key : String) (v : PyValue) :
    (∀ f, lookupField fields key = some f → validate strptime f v = false →
        setattr strptime fields vals key v
          = (vals, some (PieError.invalidValue v key))) ∧
    (lookupField fields key = Option.none →
        setattr strptime fields vals key v
          = (vals, some (PieError.unknownField key))) := by
  constructor
  · intro f hf hv
    simp [setattr, hf, hv]
  · intro hf
    simp [setattr, hf]

theorem setattr_error_leaves_state_witness :
    (lookupField [("a", PieField.integer PyValue.none (some 5) Option.none false)] "a"
        = some (PieField.integer PyValue.none (some 5) Option.none false) ∧
      validate (fun _ _ => false)
        (PieField.integer PyValue.none (some 5) Option.none false) (PyValue.int 9) = false ∧
      setattr (fun _ _ => false)
        [("a", PieField.integer PyValue.none (some 5) Option.none false)]
        [("a", PyValue.int 1)] "a" (PyValue.int 9)
        = ([("a", PyValue.int 1)], some (PieError.invalidValue (PyValue.int 9) "a"))) ∧
    (lookupField [("a", PieField.integer PyValue.none (some 5) Option.none false)] "b"
        = Option.none ∧
      setattr (fun _ _ => false)
        [("a", PieField.integer PyValue.none (some 5) Option.none false)]
        [("a", PyValue.int 1)] "b" (PyValue.int 2)
        = ([("a", PyValue.int 1)], some (PieError.unknownField "b"))) :=
  ⟨⟨rfl, rfl,
    (setattr_error_leaves_state (fun _ _ => false)
        [("a", PieField.integer PyValue.none (some 5) Option.none false)]
        [("a", PyValue.int 1)] "a" (PyValue.int 9)).1
      (PieField.integer PyValue.none (some 5) Option.none false) rfl rfl⟩,
   ⟨rfl,
    (setattr_error_leaves_state (fun _ _ => false)
        [("a", PieField.integer PyValue.none (some 5) Option.none false)]
        [("a", PyValue.int 1)] "b" (PyValue.int 2)).2 rfl⟩⟩

/-- C1 (counterexample): with a single text field whose default is the
integer `123` (and `required = false`), constructing the record with no
overrides does not succeed storing the default — the default is pushed
through the validating setter and construction raises the
invalid-field-value error. -/
theorem default_is_revalidated_counterexample :
    pieInit (fun _ _ => false)
        [("a", PieField.string (PyValue.int 123) Option.none false)] []
      = Except.error (PieError.invalidValue (PyValue.int 123) "a") :=
  rfl

/-- C1 (amended): a schema field not explicitly supplied has its default
assigned through the validated-setter path — the default is re-checked:
when it satisfies the field's `validate` it is stored and initialization
continues, and when it fails, construction raises the invalid-field-value
error for that default. -/
theorem applyDefaults_validates_default (strptime : String → String → Bool)
    (fields rest : Fields) (name : String) (f : PieField) (vals : Values)
    (h1 : hasKey vals name = false) (h2 : lookupField fields name = some f) :
    applyDefaults strptime fields ((name, f) :: rest) vals =
      (if validate strptime f (initialValue f) = true then
          applyDefaults strptime fields rest (dictSet vals name (initialValue f))
        else Except.error (PieError.invalidValue (initialValue f) name)) := by
  simp only [applyDefaults, h1, Bool.false_eq_true, if_false, setattr, h2]
  cases hv : validate strptime f (initialValue f) <;> simp [hv]

theorem applyDefaults_validates_default_witness :
    hasKey [] "a" = false ∧
    lookupField [("a", PieField.string (PyValue.int 123) Option.none false)] "a"
      = some (PieField.string (PyValue.int 123) Option.none false) ∧
    applyDefaults (fun _ _ => false)
        [("a", PieField.string (PyValue.int 123) Option.none false)]
        [("a", PieField.string (PyValue.int 123) Option.none false)] [] =
      (if validate (fun _ _ => false)
            (PieField.string (PyValue.int 123) Option.none false)
            (initialValue (PieField.string (PyValue.int 123) Option.none false)) = true then
          applyDefaults (fun _ _ => false)
            [("a", PieField.string (PyValue.int 123) Option.none false)] []
            (dictSet [] "a"
              (initialValue (PieField.string (PyValue.int 123) Option.none false)))
        else Except.error
          (PieError.invalidValue
            (initialValue (PieField.string (PyValue.int 123) Option.none false)) "a")) :=
  ⟨rfl, rfl,
   applyDefaults_validates_default (fun _ _ => false)
     [("a", PieField.string (PyValue.int 123) Option.none false)] []
     "a" (PieField.string (PyValue.int 123) Option.none false) [] rfl rfl⟩

/-- C9: a record type declared with no `PieField` members registers an
empty field map, and its class-level SQL projection is exactly
`create table <name> ()`. -/
theorem zero_field_schema_sql (qualname : String) (ns : List (String × NsVal))
    (h : ∀ p ∈ ns, p.2 = NsVal.other) :
    (pieModelMeta qualname ns).fields = [] ∧
    createTableSql (pieModelMeta qualname ns) = "create table " ++ qualname ++ " ()" := by
  have hf : collectFields ns = [] := by
    rw [collectFields, List.filterMap_eq_nil_iff]
    intro p hp
    rw [h p hp]
  refine ⟨hf, ?_⟩
  have hmeta : pieModelMeta qualname ns = { tableName := qualname, fields := [] } := by
    simp [pieModelMeta, hf]
  rw [hmeta]
  have hrfl : createTableSql { tableName := qualname, fields := [] }
      = "create table " ++ qualname ++ " " ++ "()" := rfl
  rw [hrfl, String.append_assoc]
  rfl

theorem zero_field_schema_sql_witness :
    (∀ p ∈ [("doc", NsVal.other)], p.2 = NsVal.other) ∧
    (pieModelMeta "Empty" [("doc", NsVal.other)]).fields = [] ∧
    createTableSql (pieModelMeta "Empty" [("doc", NsVal.other)])
      = "create table " ++ "Empty" ++ " ()" :=
  ⟨by decide,
   (zero_field_schema_sql "Empty" [("doc", NsVal.other)] (by decide)).1,
   (zero_field_schema_sql "Empty" [("doc", NsVal.other)] (by decide)).2⟩

lemma renderVals_eq_map (vals : Values) :
    ∀ fs : Fields, (∀ p ∈ fs, (lookupVal vals p.1).isSome = true) →
      renderVals vals fs
        = some (fs.map (fun p => parseValue ((lookupVal vals p.1).getD PyValue.none)))
  | [], _ => by simp [renderVals]
  | p :: rest, h => by
      obtain ⟨v, hv⟩ := Option.isSome_iff_exists.mp (h p (List.mem_cons_self p rest))
      have hrest := renderVals_eq_map vals rest
        (fun q hq => h q (List.mem_cons_of_mem p hq))
      simp [renderVals, hv, hrest]

/-- C10: the instance-level SQL insert projection is
`insert into <tableName> (<cols>) values (<vals>)` with the columns in
schema declaration order; a value renders unquoted exactly when its
runtime type is numeric (`isinstance(value, int | float)`), otherwise it
is wrapped in single quotes with no escaping; a boolean is numeric (so it
renders unquoted), and `None` renders as the quoted text `'None'`. -/
theorem insert_into_sql_rendering (s : Schema) (vals : Values)
    (h : ∀ p ∈ s.fields, (lookupVal vals p.1).isSome = true) :
    insertIntoSql s vals =
      some ("insert into " ++ s.tableName ++ " ("
        ++ String.intercalate ", " (s.fields.map (fun p => p.1))
        ++ ") values ("
        ++ String.intercalate ", "
            (s.fields.map (fun p => parseValue ((lookupVal vals p.1).getD PyValue.none)))
        ++ ")") ∧
    (∀ v, isNumeric v = true → parseValue v = pyStr v) ∧
    (∀ v, isNumeric v = false → parseValue v = "\x27" ++ pyStr v ++ "\x27") ∧
    (∀ b, isNumeric (PyValue.bool b) = true) ∧
    parseValue PyValue.none = "\x27None\x27" := by
  refine ⟨?_, ?_, ?_, fun b => rfl, rfl⟩
  · rw [insertIntoSql, renderVals_eq_map vals s.fields h]
  · intro v hv
    simp [parseValue, hv]
  · intro v hv
    simp [parseValue, hv]

theorem insert_into_sql_rendering_witness :
    (∀ p ∈ (Schema.mk "Person"
        [("name", PieField.string PyValue.none Option.none false),
         ("age", PieField.integer PyValue.none Option.none Option.none false)]).fields,
      (lookupVal [("name", PyValue.str "Al"), ("age", PyValue.int 30)] p.1).isSome = true) ∧
    insertIntoSql
        (Schema.mk "Person"
          [("name", PieField.string PyValue.none Option.none false),
           ("age", PieField.integer PyValue.none Option.none Option.none false)])
        [("name", PyValue.str "Al"), ("age", PyValue.int 30)]
      = some "insert into Person (name, age) values (\x27Al\x27, 30)" := by
  refine ⟨by decide, ?_⟩
  have hmain := (insert_into_sql_rendering
    (Schema.mk "Person"
      [("name", PieField.string PyValue.none Option.none false),
       ("age", PieField.integer PyValue.none Option.none Option.none false)])
    [("name", PyValue.str "Al"), ("age", PyValue.int 30)] (by decide)).1
  rw [hmain]
  rfl

end PieData
